import Mathlib

/-
Verification of the LLM proxy (OpenAI-compatible gateway over a Bedrock agent
backend and an OpenAI backend).  The definitions below are a shallow embedding
of src/app.py, src/providers/bedrock.py, src/providers/openai.py and
src/providers/init.py.  Python dictionaries, bytes and JSON values are
modelled by the PyVal type; Python exceptions by PyExc; fallible Python
expressions return Except PyExc.
-/

/-- Python exceptions that the embedded code can raise. -/
inductive PyExc where
  | keyError
  | typeError
  | attributeError
  | unicodeDecodeError
  | valueError
deriving DecidableEq

/-- Python values as far as the proxy inspects them: strings, bytes objects,
JSON numbers kept as their lexeme, booleans, None, dicts and lists. -/
inductive PyVal where
  | vstr (s : String)
  | vbytes (bs : List Nat)
  | vnum (lit : String)
  | vbool (b : Bool)
  | vnone
  | vdict (fields : List (String × PyVal))
  | vlist (items : List PyVal)

/-- Key membership in a dict, as Python `key in d`. -/
def dictHas (fields : List (String × PyVal)) (key : String) : Bool :=
  fields.any (fun p => p.1 == key)

/-- Dict lookup returning the stored value, first binding wins (dicts built by
the embedding have unique keys; JSON object parsing replaces in place). -/
def dictLookup (fields : List (String × PyVal)) (key : String) : Option PyVal :=
  (fields.find? (fun p => p.1 == key)).map (fun p => p.2)

/-- Insertion with Python dict semantics: an existing key keeps its position
and receives the new value. -/
def dictInsert (fields : List (String × PyVal)) (key : String) (v : PyVal) :
    List (String × PyVal) :=
  if fields.any (fun p => p.1 == key) then
    fields.map (fun p => if p.1 == key then (key, v) else p)
  else fields ++ [(key, v)]

/-- Whitespace stripped by Python str.strip (ASCII whitespace subset). -/
def isPySpace (c : Char) : Bool :=
  c == ' ' || c == '\t' || c == '\n' || c == '\r' ||
    c == Char.ofNat 11 || c == Char.ofNat 12

/-- Python str.strip with no argument. -/
def stripStr (s : String) : String :=
  String.mk (((s.toList.dropWhile isPySpace).reverse.dropWhile isPySpace).reverse)

/-- Whitespace bytes stripped by Python bytes.strip. -/
def isByteSpace (b : Nat) : Bool :=
  b == 32 || b == 9 || b == 10 || b == 13 || b == 11 || b == 12

/-- Python bytes.strip with no argument. -/
def stripBytes (bs : List Nat) : List Nat :=
  ((bs.dropWhile isByteSpace).reverse.dropWhile isByteSpace).reverse

/-- Python truthiness for the modelled values.  Numeric literals other than
the integer zero literal are treated as truthy. -/
def pyTruthy : PyVal → Bool
  | .vstr s => !(s == "")
  | .vbytes bs => !bs.isEmpty
  | .vnum lit => !(lit == "0")
  | .vbool b => b
  | .vnone => false
  | .vdict fields => !fields.isEmpty
  | .vlist items => !items.isEmpty

/-- Substring test on character lists. -/
def charsContain (needle : List Char) : List Char → Bool
  | [] => needle.isEmpty
  | c :: rest => needle.isPrefixOf (c :: rest) || charsContain needle rest

/-- Python `key in v`: dict key membership, substring test on strings,
element membership on lists; TypeError otherwise. -/
def pyContains (v : PyVal) (key : String) : Except PyExc Bool :=
  match v with
  | .vdict fields => .ok (dictHas fields key)
  | .vstr s => .ok (charsContain key.toList s.toList)
  | .vlist items =>
    .ok (items.any (fun x => match x with | .vstr s => s == key | _ => false))
  | _ => .error .typeError

/-- Python `v[key]` for a string key: KeyError on a dict miss, TypeError on
non-dicts. -/
def pySubscript (v : PyVal) (key : String) : Except PyExc PyVal :=
  match v with
  | .vdict fields =>
    match dictLookup fields key with
    | some x => .ok x
    | none => .error .keyError
  | _ => .error .typeError

/-- Python `v.get(key, dflt)`: AttributeError when v is not a dict. -/
def pyGet (v : PyVal) (key : String) (dflt : PyVal) : Except PyExc PyVal :=
  match v with
  | .vdict fields => .ok ((dictLookup fields key).getD dflt)
  | _ => .error .attributeError

/-- Python `v.strip()`: defined on str and bytes, AttributeError otherwise. -/
def pyStrip (v : PyVal) : Except PyExc PyVal :=
  match v with
  | .vstr s => .ok (.vstr (stripStr s))
  | .vbytes bs => .ok (.vbytes (stripBytes bs))
  | _ => .error .attributeError

/-- Python `v.decode(...)` requires a bytes object: AttributeError otherwise. -/
def asBytes (v : PyVal) : Except PyExc (List Nat) :=
  match v with
  | .vbytes bs => .ok bs
  | _ => .error .attributeError

/-- All-strings view of a list of values, for str.join. -/
def asStrings : List PyVal → Option (List String)
  | [] => some []
  | .vstr s :: rest => (asStrings rest).map (fun ss => s :: ss)
  | _ :: _ => none

/-- Python `sep.join(xs)`: TypeError unless every item is a str. -/
def pyJoin (sep : String) (xs : List PyVal) : Except PyExc String :=
  match asStrings xs with
  | some ss => .ok (String.intercalate sep ss)
  | none => .error .typeError

/-- Continuation byte test for UTF-8. -/
def isUtf8Cont (b : Nat) : Bool := decide (128 ≤ b) && decide (b ≤ 191)

/-- Strict UTF-8 decoding of a byte list to code points, rejecting overlong
forms and surrogates, as Python bytes.decode with utf-8 does. -/
def utf8Cps : List Nat → Option (List Nat)
  | [] => some []
  | b :: rest =>
    if b ≤ 127 then
      (utf8Cps rest).map (fun cps => b :: cps)
    else if 194 ≤ b ∧ b ≤ 223 then
      match rest with
      | c1 :: rest2 =>
        if isUtf8Cont c1 then
          (utf8Cps rest2).map (fun cps => ((b - 192) * 64 + (c1 - 128)) :: cps)
        else none
      | [] => none
    else if 224 ≤ b ∧ b ≤ 239 then
      match rest with
      | c1 :: c2 :: rest2 =>
        if isUtf8Cont c1 ∧ isUtf8Cont c2 ∧ (b = 224 → 160 ≤ c1) ∧
            (b = 237 → c1 ≤ 159) then
          (utf8Cps rest2).map
            (fun cps => ((b - 224) * 4096 + (c1 - 128) * 64 + (c2 - 128)) :: cps)
        else none
      | _ => none
    else if 240 ≤ b ∧ b ≤ 244 then
      match rest with
      | c1 :: c2 :: c3 :: rest2 =>
        if isUtf8Cont c1 ∧ isUtf8Cont c2 ∧ isUtf8Cont c3 ∧
            (b = 240 → 144 ≤ c1) ∧ (b = 244 → c1 ≤ 143) then
          (utf8Cps rest2).map
            (fun cps =>
              ((b - 240) * 262144 + (c1 - 128) * 4096 + (c2 - 128) * 64 +
                (c3 - 128)) :: cps)
        else none
      | _ => none
    else none

/-- Python `bs.decode("utf-8")`: UnicodeDecodeError on invalid input. -/
def utf8Decode (bs : List Nat) : Except PyExc String :=
  match utf8Cps bs with
  | some cps => .ok (String.mk (cps.map Char.ofNat))
  | none => .error .unicodeDecodeError

/-- Python `bs.decode("latin-1")`: every byte maps to the same code point and
the decode never fails. -/
def latin1Decode (bs : List Nat) : String := String.mk (bs.map Char.ofNat)

/-- JSON whitespace for json.loads. -/
def jsonWs (c : Char) : Bool := c == ' ' || c == '\t' || c == '\n' || c == '\r'

/-- Drop leading JSON whitespace. -/
def skipWs (cs : List Char) : List Char := cs.dropWhile jsonWs

/-- Hexadecimal digit value. -/
def hexVal (c : Char) : Option Nat :=
  if '0' ≤ c ∧ c ≤ '9' then some (c.toNat - 48)
  else if 'a' ≤ c ∧ c ≤ 'f' then some (c.toNat - 87)
  else if 'A' ≤ c ∧ c ≤ 'F' then some (c.toNat - 55)
  else none

/-- Single-character JSON escapes. -/
def escChar (e : Char) : Option Char :=
  if e == '"' then some '"'
  else if e == '\\' then some '\\'
  else if e == '/' then some '/'
  else if e == 'b' then some (Char.ofNat 8)
  else if e == 'f' then some (Char.ofNat 12)
  else if e == 'n' then some '\n'
  else if e == 'r' then some '\r'
  else if e == 't' then some '\t'
  else none

/-- Body of a JSON string after the opening quote, returning the decoded
characters and the input after the closing quote.  Fuel-bounded; one unit of
fuel is consumed per decoded character. -/
def parseStringChars : Nat → List Char → Option (List Char × List Char)
  | 0, _ => none
  | _ + 1, [] => none
  | fuel + 1, c :: rest =>
    if c == '"' then some ([], rest)
    else if c == '\\' then
      match rest with
      | [] => none
      | e :: rest2 =>
        if e == 'u' then
          match rest2 with
          | h1 :: h2 :: h3 :: h4 :: rest3 =>
            match hexVal h1, hexVal h2, hexVal h3, hexVal h4 with
            | some a, some b2, some c2, some d2 =>
              (parseStringChars fuel rest3).map
                (fun pr => (Char.ofNat (a * 4096 + b2 * 256 + c2 * 16 + d2) :: pr.1, pr.2))
            | _, _, _, _ => none
          | _ => none
        else
          match escChar e with
          | some ec => (parseStringChars fuel rest2).map (fun pr => (ec :: pr.1, pr.2))
          | none => none
    else if c.toNat < 32 then none
    else (parseStringChars fuel rest).map (fun pr => (c :: pr.1, pr.2))

/-- ASCII digit test. -/
def isDigitCh (c : Char) : Bool := decide ('0' ≤ c) && decide (c ≤ '9')

/-- Optional exponent part of a JSON number. -/
def parseExpPart (acc : List Char) (cs : List Char) : Option (List Char × List Char) :=
  match cs with
  | e :: t =>
    if e == 'e' || e == 'E' then
      match t with
      | s :: t1 =>
        if s == '+' || s == '-' then
          let ds := t1.takeWhile isDigitCh
          if ds.isEmpty then none
          else some (acc ++ e :: s :: ds, t1.dropWhile isDigitCh)
        else
          let ds := t.takeWhile isDigitCh
          if ds.isEmpty then none
          else some (acc ++ e :: ds, t.dropWhile isDigitCh)
      | [] => none
    else some (acc, cs)
  | [] => some (acc, [])

/-- Optional fraction part of a JSON number, then the exponent part. -/
def parseFracPart (acc : List Char) (cs : List Char) : Option (List Char × List Char) :=
  match cs with
  | '.' :: t =>
    let ds := t.takeWhile isDigitCh
    if ds.isEmpty then none
    else parseExpPart (acc ++ '.' :: ds) (t.dropWhile isDigitCh)
  | _ => parseExpPart acc cs

/-- A JSON number lexeme per the strict grammar: no leading zeros, at least
one digit in each digit run. -/
def parseNumLit (cs : List Char) : Option (List Char × List Char) :=
  match cs with
  | '-' :: t =>
    match t with
    | '0' :: t2 => parseFracPart ['-', '0'] t2
    | d :: t2 =>
      if isDigitCh d then
        parseFracPart ('-' :: d :: t2.takeWhile isDigitCh) (t2.dropWhile isDigitCh)
      else none
    | [] => none
  | '0' :: t => parseFracPart ['0'] t
  | d :: t =>
    if isDigitCh d then
      parseFracPart (d :: t.takeWhile isDigitCh) (t.dropWhile isDigitCh)
    else none
  | [] => none

mutual

/-- One JSON value, fuel-bounded recursive descent mirroring json.loads. -/
def parseValue : Nat → List Char → Option (PyVal × List Char)
  | 0, _ => none
  | fuel + 1, cs =>
    match skipWs cs with
    | [] => none
    | c :: rest =>
      if c == '{' then
        match skipWs rest with
        | '}' :: r2 => some (.vdict [], r2)
        | cs2 => parseObjBody fuel cs2 []
      else if c == '[' then
        match skipWs rest with
        | ']' :: r2 => some (.vlist [], r2)
        | cs2 => parseArrBody fuel cs2 []
      else if c == '"' then
        (parseStringChars (rest.length + 1) rest).map
          (fun pr => (.vstr (String.mk pr.1), pr.2))
      else if c == 't' then
        match rest with
        | 'r' :: 'u' :: 'e' :: r2 => some (.vbool true, r2)
        | _ => none
      else if c == 'f' then
        match rest with
        | 'a' :: 'l' :: 's' :: 'e' :: r2 => some (.vbool false, r2)
        | _ => none
      else if c == 'n' then
        match rest with
        | 'u' :: 'l' :: 'l' :: r2 => some (.vnone, r2)
        | _ => none
      else if c == '-' || isDigitCh c then
        (parseNumLit (c :: rest)).map (fun pr => (.vnum (String.mk pr.1), pr.2))
      else none

/-- Members of a JSON object after the opening brace (non-empty case). -/
def parseObjBody : Nat → List Char → List (String × PyVal) →
    Option (PyVal × List Char)
  | 0, _, _ => none
  | fuel + 1, cs, acc =>
    match cs with
    | '"' :: rest =>
      match parseStringChars (rest.length + 1) rest with
      | some (keyChars, r1) =>
        match skipWs r1 with
        | ':' :: r2 =>
          match parseValue fuel r2 with
          | some (v, r3) =>
            match skipWs r3 with
            | ',' :: r4 => parseObjBody fuel (skipWs r4) (dictInsert acc (String.mk keyChars) v)
            | '}' :: r4 => some (.vdict (dictInsert acc (String.mk keyChars) v), r4)
            | _ => none
          | none => none
        | _ => none
      | none => none
    | _ => none

/-- Items of a JSON array after the opening bracket (non-empty case). -/
def parseArrBody : Nat → List Char → List PyVal → Option (PyVal × List Char)
  | 0, _, _ => none
  | fuel + 1, cs, acc =>
    match parseValue fuel cs with
    | some (v, r1) =>
      match skipWs r1 with
      | ',' :: r2 => parseArrBody fuel r2 (acc ++ [v])
      | ']' :: r2 => some (.vlist (acc ++ [v]), r2)
      | _ => none
    | none => none

end

/-- Python json.loads: parse one value and require only whitespace after it;
returns none where json.loads raises JSONDecodeError. -/
def jsonLoads (s : String) : Option PyVal :=
  match parseValue (4 * s.length + 16) s.toList with
  | some (v, rest) => if (skipWs rest).isEmpty then some v else none
  | none => none

/-- bedrock.py line 69 and app.py line 70: placeholder for an empty stream. -/
def agentNoResponseText : String :=
  "I apologize, but I received no response from the agent. How else can I assist you?"

/-- bedrock.py line 125 and openai.py line 63: placeholder when no fragment
was collected from a non-empty stream. -/
def troubleProcessingText : String :=
  "I apologize, but I" ++ String.singleton (Char.ofNat 39) ++
    "m having trouble processing the response. How else can I assist you?"

/-- bedrock.py line 121 and openai.py line 59: placeholder returned from the
exception handler around the aggregation loop. -/
def errorProcessingText : String :=
  "I apologize, but I encountered an error processing the response. How else can I assist you?"

/-- openai.py lines 49 and 186: backend-agnostic empty-response placeholder. -/
def openaiNoResponseText : String :=
  "I apologize, but I received no response. How else can I assist you?"

/-- bedrock.py lines 76..85: the trace branch of the synchronous decoder. -/
def traceFragment (ev : PyVal) : Except PyExc (Option PyVal) :=
  match pySubscript ev "trace" with
  | .error e => .error e
  | .ok traceVal =>
    match pyGet traceVal "trace" (.vdict []) with
    | .error e => .error e
    | .ok t1 =>
      match pyGet t1 "orchestrationTrace" (.vdict []) with
      | .error e => .error e
      | .ok traceData =>
        match pyContains traceData "observation" with
        | .error e => .error e
        | .ok false => .ok none
        | .ok true =>
          match pySubscript traceData "observation" with
          | .error e => .error e
          | .ok observation =>
            match observation with
            | .vdict obsFields =>
              if dictHas obsFields "finalResponse" then
                match pySubscript observation "finalResponse" with
                | .error e => .error e
                | .ok finalResp =>
                  match pyGet finalResp "text" (.vstr "") with
                  | .error e => .error e
                  | .ok finalText =>
                    if pyTruthy finalText then .ok (some finalText) else .ok none
              else .ok none
            | _ => .ok none

/-- bedrock.py lines 91..99: what the synchronous decoder does with a
successfully utf-8-decoded chunk text: try JSON, take a truthy-stripped
content field (appending the unstripped value), fall back to the raw decoded
text on JSONDecodeError.  A strip on a non-string content raises. -/
def chunkJsonStep (chunkContent : String) : Except PyExc (Option PyVal) :=
  if stripStr chunkContent == "" then .ok none
  else
    match jsonLoads chunkContent with
    | some chunkData =>
      match chunkData with
      | .vdict fields =>
        if dictHas fields "content" then
          match pySubscript chunkData "content" with
          | .error e => .error e
          | .ok content =>
            match pyStrip content with
            | .error e => .error e
            | .ok stripped =>
              if pyTruthy stripped then .ok (some content) else .ok none
        else .ok none
      | _ => .ok none
    | none =>
      if stripStr chunkContent == "" then .ok none
      else .ok (some (.vstr chunkContent))

/-- bedrock.py lines 89..100: the utf-8 byte-chunk branch of the synchronous
decoder; the exception (if any) escapes to the per-branch handlers. -/
def syncChunkBody (ev : PyVal) : Except PyExc (Option PyVal) :=
  match pySubscript ev "chunk" with
  | .error e => .error e
  | .ok chunkObj =>
    match pySubscript chunkObj "bytes" with
    | .error e => .error e
    | .ok bytesVal =>
      match asBytes bytesVal with
      | .error e => .error e
      | .ok bs =>
        match utf8Decode bs with
        | .error e => .error e
        | .ok chunkContent => chunkJsonStep chunkContent

/-- bedrock.py lines 102..107: the latin-1 fallback run inside the
UnicodeDecodeError handler; its own bare except swallows everything. -/
def syncLatinBody (ev : PyVal) : Except PyExc (Option PyVal) :=
  match pySubscript ev "chunk" with
  | .error e => .error e
  | .ok chunkObj =>
    match pySubscript chunkObj "bytes" with
    | .error e => .error e
    | .ok bytesVal =>
      match asBytes bytesVal with
      | .error e => .error e
      | .ok bs =>
        let chunkContent := latin1Decode bs
        if stripStr chunkContent == "" then .ok none
        else .ok (some (.vstr chunkContent))

/-- bedrock.py lines 110..117: the direct text / content branches.  The
original unstripped value is appended when its strip is truthy. -/
def directFragment (ev : PyVal) (key : String) : Except PyExc (Option PyVal) :=
  match pySubscript ev key with
  | .error e => .error e
  | .ok v =>
    if pyTruthy v then
      match pyStrip v with
      | .error e => .error e
      | .ok stripped => if pyTruthy stripped then .ok (some v) else .ok none
    else .ok none

/-- One iteration of the loop in BedrockProvider.processCompletionStream
(bedrock.py lines 71..117): zero-or-one fragment, or an escaping exception.
Only UnicodeDecodeError inside the chunk branch is handled in place (via the
latin-1 fallback); every other exception escapes to the loop-level handler. -/
def processEvent (ev : PyVal) : Except PyExc (Option PyVal) :=
  match pyContains ev "trace" with
  | .error e => .error e
  | .ok true => traceFragment ev
  | .ok false =>
    match pyContains ev "chunk" with
    | .error e => .error e
    | .ok true =>
      match syncChunkBody ev with
      | .error .unicodeDecodeError =>
        match syncLatinBody ev with
        | .error _ => .ok none
        | .ok o => .ok o
      | .error e => .error e
      | .ok o => .ok o
    | .ok false =>
      match pyContains ev "text" with
      | .error e => .error e
      | .ok true => directFragment ev "text"
      | .ok false =>
        match pyContains ev "content" with
        | .error e => .error e
        | .ok true => directFragment ev "content"
        | .ok false => .ok none

/-- The full event loop, accumulating fragments; the first escaping exception
aborts the remaining events. -/
def processEvents : List PyVal → List PyVal → Except PyExc (List PyVal)
  | [], acc => .ok acc
  | ev :: rest, acc =>
    match processEvent ev with
    | .error e => .error e
    | .ok none => processEvents rest acc
    | .ok (some v) => processEvents rest (acc ++ [v])

/-- BedrockProvider.processCompletionStream (bedrock.py lines 59..129, same
code at app.py lines 60..128): empty-stream placeholder, loop wrapped by a
catch-all handler returning the error placeholder, the no-fragment
placeholder, else the space-join of the fragments.  The join sits outside the
handler, so its TypeError propagates to the caller. -/
def processCompletionStream (completionStream : List PyVal) : Except PyExc String :=
  if completionStream.isEmpty then .ok agentNoResponseText
  else
    match processEvents completionStream [] with
    | .error _ => .ok errorProcessingText
    | .ok fullResponse =>
      if fullResponse.isEmpty then .ok troubleProcessingText
      else pyJoin " " fullResponse

/-- The delta of one OpenAI streaming choice. -/
structure ODelta where
  content : Option String
deriving DecidableEq

/-- One OpenAI streaming choice. -/
structure OChoice where
  delta : ODelta
  finish_reason : Option String
deriving DecidableEq

/-- One OpenAI streaming chunk. -/
structure OChunk where
  choices : List OChoice
deriving DecidableEq

/-- Fragments collected by OpenAIProvider.processOpenaiStream loop
(openai.py lines 51..55): the first choice delta content when truthy. -/
def oFragments : List OChunk → List String
  | [] => []
  | ch :: rest =>
    match ch.choices with
    | c :: _ =>
      match c.delta.content with
      | some s => if s == "" then oFragments rest else s :: oFragments rest
      | none => oFragments rest
    | [] => oFragments rest

/-- OpenAIProvider.processOpenaiStream (openai.py lines 40..67): empty-stream
placeholder, no-fragment placeholder, else empty-separator concatenation. -/
def processOpenaiStream (stream : List OChunk) : String :=
  if stream.isEmpty then openaiNoResponseText
  else
    let fr := oFragments stream
    if fr.isEmpty then troubleProcessingText
    else String.join fr

/-- Delta of one outward chat.completion.chunk envelope. -/
structure ChunkDelta where
  role : Option String
  content : Option String
deriving DecidableEq

/-- One choice of an outward chunk envelope; logprobs is always null in the
source and is left implicit. -/
structure ChunkChoice where
  index : Nat
  delta : ChunkDelta
  finish_reason : Option String
deriving DecidableEq

/-- Outward chat.completion.chunk envelope; the constant fields object =
"chat.completion.chunk" and system_fingerprint = null of the source are
carried by the object field and left implicit respectively. -/
structure ChunkEnvelope where
  id : String
  object : String
  created : Int
  model : String
  choices : List ChunkChoice
deriving DecidableEq

/-- One SSE frame as yielded by the streaming generators: a serialized chunk
envelope, the literal DONE sentinel, or a serialized error envelope carrying
message, type and code. -/
inductive StreamFrame where
  | chunk (env : ChunkEnvelope)
  | done
  | errorEnvelope (message : String) (etype : String) (code : Int)
deriving DecidableEq

/-- The initial role-delta chunk of every streaming response. -/
def roleChunk (cid : String) (created : Int) (model : String) : ChunkEnvelope :=
  ⟨cid, "chat.completion.chunk", created, model, [⟨0, ⟨some "assistant", none⟩, none⟩]⟩

/-- A content-delta chunk. -/
def contentChunk (cid : String) (created : Int) (model : String) (s : String) :
    ChunkEnvelope :=
  ⟨cid, "chat.completion.chunk", created, model, [⟨0, ⟨none, some s⟩, none⟩]⟩

/-- A terminal chunk carrying a finish reason and an empty delta. -/
def finishChunk (cid : String) (created : Int) (model : String) (r : String) :
    ChunkEnvelope :=
  ⟨cid, "chat.completion.chunk", created, model, [⟨0, ⟨none, none⟩, some r⟩]⟩

/-- One chat message of the inbound request. -/
structure ChatMsg where
  role : String
  content : String
deriving DecidableEq

/-- The generator expression next(msg content for msg in reversed messages if
role is user): content of the latest user message, None when absent. -/
def lastUserContent (messages : List ChatMsg) : Option String :=
  (messages.reverse.find? (fun m => m.role == "user")).map (fun m => m.content)

/-- Python truthiness applied to the latest user message: None and the empty
string are both rejected by `if not last_message`. -/
def truthyLastUser (messages : List ChatMsg) : Option String :=
  match lastUserContent messages with
  | some s => if s == "" then none else some s
  | none => none

/-- Message text of str(e) for the modelled exceptions. -/
def pyExcMessage : PyExc → String
  | .keyError => "KeyError"
  | .typeError => "TypeError"
  | .attributeError => "AttributeError"
  | .unicodeDecodeError => "UnicodeDecodeError"
  | .valueError => "No user message found"

/-- bedrock.py lines 221..275 (same code at app.py lines 255..294): what the
streaming loop does with a successfully decoded chunk text.  Unlike the
synchronous decoder it emits the STRIPPED content, and a strip on a
non-string JSON content raises (caught by the per-event handler). -/
def chunkJsonStepStream (chunkContent : String) : Except PyExc (Option String) :=
  if stripStr chunkContent == "" then .ok none
  else
    match jsonLoads chunkContent with
    | some (.vdict fields) =>
      if dictHas fields "content" then
        match dictLookup fields "content" with
        | some (.vstr c) =>
          if stripStr c == "" then .ok none else .ok (some (stripStr c))
        | some _ => .error .attributeError
        | none => .ok none
      else .ok none
    | some _ => .ok none
    | none =>
      if stripStr chunkContent == "" then .ok none
      else .ok (some (stripStr chunkContent))

/-- The byte-chunk handling of the streaming loop after the membership test:
decode utf-8 and run the JSON step, emitting stripped content. -/
def bedrockChunkExtract (ev : PyVal) : Except PyExc (Option String) :=
  match pySubscript ev "chunk" with
  | .error e => .error e
  | .ok chunkObj =>
    match pySubscript chunkObj "bytes" with
    | .error e => .error e
    | .ok bytesVal =>
      match asBytes bytesVal with
      | .error e => .error e
      | .ok bs =>
        match utf8Decode bs with
        | .error e => .error e
        | .ok chunkContent => chunkJsonStepStream chunkContent

/-- One event of the bedrock streaming loop: membership test outside the try,
catch-all inside. -/
def bedrockChunkYield (ev : PyVal) : Except PyExc (Option String) :=
  match pyContains ev "chunk" with
  | .error e => .error e
  | .ok false => .ok none
  | .ok true =>
    match bedrockChunkExtract ev with
    | .error _ => .ok none
    | .ok o => .ok o

/-- Result of the bedrock streaming loop: emitted frames, the
has-sent-content flag, and the exception that escaped the loop, if any. -/
structure LoopOut where
  frames : List StreamFrame
  sent : Bool
  exc : Option PyExc
deriving DecidableEq

/-- The bedrock streaming loop over the raw events. -/
def bedrockLoop (cid : String) (created : Int) (model : String) :
    List PyVal → LoopOut
  | [] => ⟨[], false, none⟩
  | ev :: rest =>
    match bedrockChunkYield ev with
    | .error e => ⟨[], false, some e⟩
    | .ok none => bedrockLoop cid created model rest
    | .ok (some c) =>
      let out := bedrockLoop cid created model rest
      ⟨.chunk (contentChunk cid created model c) :: out.frames, true, out.exc⟩

/-- BedrockProvider.get_streaming_response (bedrock.py lines 169..319): role
chunk first, then deriving the latest user message (ValueError caught by the
outer handler), the backend call with its given outcome, the loop, the
placeholder when nothing was sent, the terminal chunk and the DONE sentinel;
any escaping exception is turned into a single error envelope. -/
def bedrockStreamingFrames (messages : List ChatMsg) (cid : String)
    (created : Int) (model : String) (invokeResult : Except PyExc (List PyVal)) :
    List StreamFrame :=
  .chunk (roleChunk cid created model) ::
    match truthyLastUser messages with
    | none => [.errorEnvelope "No user message found" "server_error" 500]
    | some _ =>
      match invokeResult with
      | .error e => [.errorEnvelope (pyExcMessage e) "server_error" 500]
      | .ok events =>
        let out := bedrockLoop cid created model events
        out.frames ++
          match out.exc with
          | some e => [.errorEnvelope (pyExcMessage e) "server_error" 500]
          | none =>
            (if out.sent then [] else
              [.chunk (contentChunk cid created model agentNoResponseText)]) ++
              [.chunk (finishChunk cid created model "stop"), .done]

/-- openai.py lines 137..164: the content chunk emitted for a truthy
first-choice delta content, together with the has-sent-content update. -/
def openaiContentPart (cid : String) (created : Int) (model : String)
    (c : OChoice) : List StreamFrame × Bool :=
  match c.delta.content with
  | some s =>
    if s == "" then ([], false)
    else ([.chunk (contentChunk cid created model s)], true)
  | none => ([], false)

/-- openai.py lines 167..182: the terminal chunk emitted when an event
carries a finish reason. -/
def openaiFinishPart (cid : String) (created : Int) (model : String)
    (c : OChoice) : List StreamFrame :=
  match c.finish_reason with
  | some r => [.chunk (finishChunk cid created model r)]
  | none => []

/-- The full OpenAI streaming loop over the backend events. -/
def openaiLoop (cid : String) (created : Int) (model : String) :
    List OChunk → List StreamFrame × Bool
  | [] => ([], false)
  | ch :: rest =>
    let tail := openaiLoop cid created model rest
    match ch.choices with
    | [] => tail
    | c :: _ =>
      ((openaiContentPart cid created model c).1 ++
        openaiFinishPart cid created model c ++ tail.1,
       (openaiContentPart cid created model c).2 || tail.2)

/-- OpenAIProvider.get_streaming_response (openai.py lines 97..226) on the
exception-free path: role chunk, the loop frames, and when no content was
sent the placeholder content chunk plus a stop chunk, then the DONE
sentinel. -/
def openaiStreamingFrames (cid : String) (created : Int) (model : String)
    (stream : List OChunk) : List StreamFrame :=
  let out := openaiLoop cid created model stream
  .chunk (roleChunk cid created model) ::
    (out.1 ++
      ((if out.2 then [] else
        [.chunk (contentChunk cid created model openaiNoResponseText),
         .chunk (finishChunk cid created model "stop")]) ++ [.done]))

/-- The usage block of a non-streaming completion response. -/
structure UsageInfo where
  prompt_tokens : Int
  completion_tokens : Int
  total_tokens : Int
deriving DecidableEq

/-- The assistant message of a non-streaming completion response. -/
structure CompletionMessage where
  role : String
  content : String
deriving DecidableEq

/-- One choice of a non-streaming completion response. -/
structure CompletionChoice where
  index : Nat
  message : CompletionMessage
  finish_reason : String
deriving DecidableEq

/-- A non-streaming chat.completion response envelope. -/
structure CompletionResponse where
  id : String
  object : String
  created : Int
  model : String
  choices : List CompletionChoice
  usage : UsageInfo
deriving DecidableEq

/-- app.py lines 130..152: the OpenAI-format completion envelope with the
fixed sentinel usage values; the fresh uuid and the clock reading are
parameters of the embedding. -/
def create_chat_completion_response (freshId : String) (now : Int)
    (responseText : String) (model : String) : CompletionResponse :=
  ⟨"chatcmpl-" ++ freshId, "chat.completion", now, model,
    [⟨0, ⟨"assistant", responseText⟩, "stop"⟩], ⟨-1, -1, -1⟩⟩

/-- The inbound request body as consumed by the endpoint. -/
structure ReqData where
  messages : List ChatMsg
  stream : Bool
  session_id : Option String
deriving DecidableEq

/-- app.py lines 189..342: the streaming generator: role chunk, the inline
user-message re-check emitting an invalid-request error envelope, the second
backend call, then the same loop, placeholder, terminal chunk and sentinel as
the provider generator. -/
def stream_chat_completion (data : ReqData)
    (invokeResult : Except PyExc (List PyVal)) (cid : String) (created : Int) :
    List StreamFrame :=
  .chunk (roleChunk cid created "bedrock-agent") ::
    match truthyLastUser data.messages with
    | none => [.errorEnvelope "No user message found" "invalid_request_error" 400]
    | some _ =>
      match invokeResult with
      | .error e => [.errorEnvelope (pyExcMessage e) "server_error" 500]
      | .ok events =>
        let out := bedrockLoop cid created "bedrock-agent" events
        out.frames ++
          match out.exc with
          | some e => [.errorEnvelope (pyExcMessage e) "server_error" 500]
          | none =>
            (if out.sent then [] else
              [.chunk (contentChunk cid created "bedrock-agent" agentNoResponseText)]) ++
              [.chunk (finishChunk cid created "bedrock-agent" "stop"), .done]

/-- Outcome of the HTTP endpoint: a 400 validation rejection, a non-streaming
JSON body, an SSE streaming body, or a 500 error body. -/
inductive HttpOutcome where
  | badRequest (body : String)
  | okJson (resp : CompletionResponse)
  | streamResp (frames : List StreamFrame)
  | serverError (body : String)
deriving DecidableEq

/-- app.py lines 344..413, chat_completions: validate the latest user message
(400 before any client is built or backend call made), call the agent, then
dispatch to the streaming generator (which performs its own second call,
given here as the second outcome parameter) or to the synchronous
aggregation.  The boolean records whether the backend invocation was
reached. -/
def chat_completions (data : ReqData)
    (invokeResult invokeResult2 : Except PyExc (List PyVal))
    (freshId : String) (now : Int) : HttpOutcome × Bool :=
  match truthyLastUser data.messages with
  | none => (.badRequest "No user message found", false)
  | some _ =>
    match invokeResult with
    | .error e =>
      (.serverError ("Error processing response: " ++ pyExcMessage e), true)
    | .ok completion =>
      if data.stream then
        (.streamResp
          (stream_chat_completion data invokeResult2 ("chatcmpl-" ++ freshId) now),
          true)
      else
        match processCompletionStream completion with
        | .error e =>
          (.serverError ("Error processing response: " ++ pyExcMessage e), true)
        | .ok text =>
          (.okJson (create_chat_completion_response freshId now text "bedrock-agent"),
            true)

/-- Environment variables consulted by the two provider constructors. -/
structure ProviderEnv where
  agent_id : Option String
  agent_alias_id : Option String
  aws_access_key_id : Option String
  aws_secret_access_key : Option String
  openai_api_key : Option String
deriving DecidableEq

/-- Python truthiness of an optional environment string. -/
def truthyOpt : Option String → Bool
  | some s => !(s == "")
  | none => false

/-- BedrockProvider.is_available (bedrock.py lines 43..47). -/
def bedrockAvailable (env : ProviderEnv) : Bool :=
  truthyOpt env.agent_id && truthyOpt env.agent_alias_id &&
    truthyOpt env.aws_access_key_id && truthyOpt env.aws_secret_access_key

/-- OpenAIProvider.is_available (openai.py lines 36..38). -/
def openaiAvailable (env : ProviderEnv) : Bool := truthyOpt env.openai_api_key

/-- Errors raised by providers/init.py get_provider (all ValueError in the
source, distinguished here by their message). -/
inductive ProviderError where
  | unknownProvider (name : String)
  | notAvailable (name : String)
  | noProviderAvail
deriving DecidableEq

/-- Python str.lower for ASCII names. -/
def pyLower (s : String) : String := String.mk (s.toList.map Char.toLower)

/-- The probe loop of get_provider: providers are tried in dict insertion
order, bedrock first then openai, returning the first available one. -/
def probeProviders (env : ProviderEnv) : Except ProviderError String :=
  if bedrockAvailable env then .ok "bedrock"
  else if openaiAvailable env then .ok "openai"
  else .error .noProviderAvail

/-- providers/init.py lines 11..51, get_provider: a truthy explicit name is
lowercased and must be in the known set, then the chosen provider must be
available; a falsy name (None or the empty string) falls through to the
probe loop. -/
def get_provider (env : ProviderEnv) (providerName : Option String) :
    Except ProviderError String :=
  match providerName with
  | some s =>
    if s == "" then probeProviders env
    else
      let l := pyLower s
      if l == "bedrock" then
        if bedrockAvailable env then .ok "bedrock" else .error (.notAvailable l)
      else if l == "openai" then
        if openaiAvailable env then .ok "openai" else .error (.notAvailable l)
      else .error (.unknownProvider l)
  | none => probeProviders env

/-- Role-delta test on a frame: some choice whose delta carries a role. -/
def isRoleFrame : StreamFrame → Bool
  | .chunk e => e.choices.any (fun c => c.delta.role.isSome)
  | _ => false

/-- Finish-reason test on a frame. -/
def isFinishFrame : StreamFrame → Bool
  | .chunk e => e.choices.any (fun c => c.finish_reason.isSome)
  | _ => false

/-- Non-empty content test on a delta. -/
def deltaHasContent (d : ChunkDelta) : Bool :=
  match d.content with
  | some s => !(s == "")
  | none => false

/-- Non-empty-content test on a frame. -/
def isNonemptyContentFrame : StreamFrame → Bool
  | .chunk e => e.choices.any (fun c => deltaHasContent c.delta)
  | _ => false

/-- The frame sequence starts with a role-delta chunk. -/
def startsWithRole (fs : List StreamFrame) : Bool :=
  match fs with
  | f :: _ => isRoleFrame f
  | [] => false

/-- The frame sequence ends with a finish-reason chunk immediately followed
by the DONE sentinel. -/
def finishThenDone (fs : List StreamFrame) : Bool :=
  match fs.reverse with
  | .done :: f :: _ => isFinishFrame f
  | _ => false

/-- The last frame of a sequence is a finish-reason chunk. -/
def lastIsFinish (fs : List StreamFrame) : Bool :=
  match fs.reverse with
  | f :: _ => isFinishFrame f
  | [] => false

/-- The outward streaming contract of spec section 8: role-delta chunk first,
finish-reason chunk immediately followed by DONE at the end, and at least one
chunk with non-empty content. -/
def sseContract (fs : List StreamFrame) : Bool :=
  startsWithRole fs && finishThenDone fs && fs.any isNonemptyContentFrame

/-- A byte-chunk event as delivered by the agent backend. -/
def mkChunkEvent (bs : List Nat) : PyVal :=
  .vdict [("chunk", .vdict [("bytes", .vbytes bs)])]

/-- A direct-text event. -/
def mkTextEvent (s : String) : PyVal := .vdict [("text", .vstr s)]

/-- A direct-content event. -/
def mkContentEvent (s : String) : PyVal := .vdict [("content", .vstr s)]

/-- A trace event carrying a final-response observation. -/
def mkTraceEvent (s : String) : PyVal :=
  .vdict [("trace", .vdict [("trace", .vdict [("orchestrationTrace",
    .vdict [("observation", .vdict [("finalResponse",
      .vdict [("text", .vstr s)])])])])])]

/-- A chunk event whose chunk dict lacks the bytes key: its KeyError escapes
the synchronous per-branch handlers. -/
def chunkNoBytesEvent : PyVal := .vdict [("chunk", .vdict [])]

/-- A chunk event whose bytes are not valid UTF-8 (a lone two-byte lead). -/
def badUtf8ChunkEvent : PyVal := mkChunkEvent [195]

/-- The latin-1 reading of the lone 0xC3 byte. -/
def latinFallbackText : String := String.singleton (Char.ofNat 195)

/-- The bytes of the ASCII text not-json. -/
def notJsonBytes : List Nat := [110, 111, 116, 45, 106, 115, 111, 110]

/-- A dict event without a chunk key, as the streaming loop classifies it. -/
def isChunklessDictEvent : PyVal → Bool
  | .vdict fields => !(dictHas fields "chunk")
  | _ => false

/-- Bytes of the JSON object text with a single content field holding B:
byte 123 is the opening brace, 125 the closing one, 34 the double quote. -/
def contentBJsonBytes : List Nat :=
  [123, 34, 99, 111, 110, 116, 101, 110, 116, 34, 58, 32, 34, 66, 34, 125]

theorem processEvents_cons (ev : PyVal) (rest acc : List PyVal) :
    processEvents (ev :: rest) acc =
      match processEvent ev with
      | .error e => .error e
      | .ok none => processEvents rest acc
      | .ok (some v) => processEvents rest (acc ++ [v]) := rfl

theorem processEvent_chunkNoBytes :
    processEvent chunkNoBytesEvent = .error .keyError := rfl

theorem processEvent_badUtf8 :
    processEvent badUtf8ChunkEvent = .ok (some (PyVal.vstr latinFallbackText)) := rfl

theorem pcs_of_error (evs : List PyVal) (e : PyExc)
    (h : processEvents evs [] = .error e) :
    processCompletionStream evs = .ok errorProcessingText := by
  cases evs with
  | nil => simp [processEvents] at h
  | cons a t => simp [processCompletionStream, h]

/-- Claim C1 counterexample: in the agent-style synchronous aggregation path,
a KeyError while decoding the first event (a chunk event without a bytes
key) makes the whole aggregate the generic error placeholder, so the
fragment of the later text event does not appear, although processing that
event alone would have produced it. -/
theorem c1_counterexample :
    processCompletionStream [chunkNoBytesEvent, mkTextEvent "world"] =
      .ok errorProcessingText ∧
    processCompletionStream [mkTextEvent "world"] = .ok "world" ∧
    errorProcessingText ≠ "world" := ⟨rfl, rfl, by decide⟩

/-- Claim C1 (amended): in the agent-style synchronous aggregation path an
exception raised while decoding a single event DOES abort the remaining
events and the aggregate becomes the generic error placeholder; only the
failure modes the chunk branch handles in place (a UTF-8 decode failure,
recovered via the latin-1 fallback, and a JSON parse failure) let processing
continue with the next event. -/
theorem c1_amended :
    (∀ (rest acc : List PyVal),
      processEvents (chunkNoBytesEvent :: rest) acc = .error .keyError) ∧
    (∀ (rest : List PyVal),
      processCompletionStream (chunkNoBytesEvent :: rest) = .ok errorProcessingText) ∧
    (∀ (rest acc : List PyVal),
      processEvents (badUtf8ChunkEvent :: rest) acc =
        processEvents rest (acc ++ [PyVal.vstr latinFallbackText])) := by
  have h1 : ∀ (rest acc : List PyVal),
      processEvents (chunkNoBytesEvent :: rest) acc = .error .keyError := by
    intro rest acc
    rw [processEvents_cons, processEvent_chunkNoBytes]
  refine ⟨h1, ?_, ?_⟩
  · intro rest
    exact pcs_of_error _ .keyError (h1 rest [])
  · intro rest acc
    rw [processEvents_cons, processEvent_badUtf8]

/-- Claim C1 witness: the amended statement at concrete inputs. -/
theorem c1_witness :
    processEvents [chunkNoBytesEvent] [] = .error .keyError ∧
    processCompletionStream [chunkNoBytesEvent] = .ok errorProcessingText ∧
    processEvents [badUtf8ChunkEvent] [] =
      processEvents [] [PyVal.vstr latinFallbackText] :=
  ⟨c1_amended.1 [] [], c1_amended.2.1 [], c1_amended.2.2 [] []⟩

/-- Claim C2 counterexample: a non-empty stream consisting of one
unrecognized event yields zero fragments, and the aggregate is the
having-trouble placeholder, not the received-no-response-from-the-agent
placeholder the claim names. -/
theorem c2_counterexample :
    processCompletionStream [PyVal.vdict []] = .ok troubleProcessingText ∧
    troubleProcessingText ≠ agentNoResponseText := ⟨rfl, by decide⟩

/-- Claim C2 (amended): only the EMPTY iterator yields the fixed
received-no-response-from-the-agent placeholder; a non-empty iterator that
yields zero fragments without raising yields the distinct having-trouble
placeholder. -/
theorem c2_amended :
    processCompletionStream [] = .ok agentNoResponseText ∧
    (∀ (evs : List PyVal), evs ≠ [] → processEvents evs [] = .ok [] →
      processCompletionStream evs = .ok troubleProcessingText) := by
  refine ⟨rfl, ?_⟩
  intro evs hne h
  cases evs with
  | nil => exact absurd rfl hne
  | cons a t => simp [processCompletionStream, h]

/-- Claim C2 witness: the amended statement at a concrete non-empty
zero-fragment stream. -/
theorem c2_witness :
    processCompletionStream [PyVal.vdict [("other", PyVal.vnone)]] =
      .ok troubleProcessingText :=
  c2_amended.2 [PyVal.vdict [("other", PyVal.vnone)]] (by simp) (by rfl)

/-- Claim C3 counterexample: an exception after a captured fragment does NOT
return the captured text: the stream text event Hello followed by a raising
chunk event aggregates to the generic error placeholder, while the text
event alone aggregates to Hello. -/
theorem c3_counterexample :
    processCompletionStream [mkTextEvent "Hello", chunkNoBytesEvent] =
      .ok errorProcessingText ∧
    processCompletionStream [mkTextEvent "Hello"] = .ok "Hello" ∧
    errorProcessingText ≠ "Hello" := ⟨rfl, rfl, by decide⟩

/-- Claim C3 (amended): whenever an exception escapes the event loop of the
agent-style synchronous aggregation, the aggregate is the generic error
placeholder, regardless of how many fragments were captured before the
exception; the captured fragments are discarded. -/
theorem c3_amended (evs : List PyVal) (e : PyExc)
    (h : processEvents evs [] = .error e) :
    processCompletionStream evs = .ok errorProcessingText :=
  pcs_of_error evs e h

/-- Claim C3 witness: the amended statement at a concrete input where a
fragment was captured before the exception. -/
theorem c3_witness :
    processCompletionStream [mkTextEvent "Hi", chunkNoBytesEvent] =
      .ok errorProcessingText :=
  c3_amended [mkTextEvent "Hi", chunkNoBytesEvent] .keyError (by rfl)

theorem syncChunkBody_mkChunkEvent (bs : List Nat) :
    syncChunkBody (mkChunkEvent bs) =
      match utf8Decode bs with
      | .error e => .error e
      | .ok chunkContent => chunkJsonStep chunkContent := rfl

theorem processEvent_mkChunkEvent (bs : List Nat) :
    processEvent (mkChunkEvent bs) =
      match syncChunkBody (mkChunkEvent bs) with
      | .error .unicodeDecodeError =>
        match syncLatinBody (mkChunkEvent bs) with
        | .error _ => .ok none
        | .ok o => .ok o
      | .error e => .error e
      | .ok o => .ok o := rfl

/-- Claim C6: a byte-chunk event whose bytes decode under UTF-8 to a
non-blank string failing JSON parsing contributes that decoded text itself
as a fragment (the fallback-to-plain-text branch), rather than being
dropped. -/
theorem c6_fallback (bs : List Nat) (s : String)
    (h1 : utf8Decode bs = .ok s) (h2 : stripStr s ≠ "")
    (h3 : jsonLoads s = none) :
    processEvent (mkChunkEvent bs) = .ok (some (PyVal.vstr s)) := by
  have hstep : chunkJsonStep s = .ok (some (PyVal.vstr s)) := by
    unfold chunkJsonStep
    rw [h3]
    simp [h2]
  rw [processEvent_mkChunkEvent, syncChunkBody_mkChunkEvent, h1]
  simp [hstep]

/-- Claim C6 witness: the chunk whose bytes spell not-json yields the
fragment not-json verbatim. -/
theorem c6_witness :
    processEvent (mkChunkEvent notJsonBytes) = .ok (some (PyVal.vstr "not-json")) :=
  c6_fallback notJsonBytes "not-json" (by rfl) (by decide) (by rfl)

theorem asStrings_map (strs : List String) :
    asStrings (strs.map PyVal.vstr) = some strs := by
  induction strs with
  | nil => rfl
  | cons a t ih => simp [asStrings, ih]

/-- Claim C7: the agent-style aggregate is the single-space join of the
fragments the loop collected, and the model-style aggregate is their plain
concatenation, both in source emission order. -/
theorem c7_aggregation :
    (∀ (evs : List PyVal) (strs : List String),
      processEvents evs [] = .ok (strs.map PyVal.vstr) → strs ≠ [] →
      processCompletionStream evs = .ok (String.intercalate " " strs)) ∧
    (∀ (stream : List OChunk), stream ≠ [] → oFragments stream ≠ [] →
      processOpenaiStream stream = String.join (oFragments stream)) := by
  constructor
  · intro evs strs h hne
    cases evs with
    | nil =>
      simp only [processEvents] at h
      have : strs.map PyVal.vstr = [] := by
        cases hmap : strs.map PyVal.vstr with
        | nil => rfl
        | cons b u => rw [hmap] at h; exact absurd h (by simp)
      exact absurd (List.map_eq_nil_iff.mp this) hne
    | cons a t =>
      have hmapne : ¬(strs.map PyVal.vstr).isEmpty = true := by
        simp [List.map_eq_nil_iff, hne]
      simp [processCompletionStream, h, hmapne, pyJoin, asStrings_map]
  · intro s h1 h2
    have h1e : ¬s.isEmpty = true := by simp [h1]
    have h2e : ¬(oFragments s).isEmpty = true := by simp [h2]
    simp [processOpenaiStream, h1e, h2e]

/-- Claim C7 witness: the exact Hello world fragment pair through both
adapters. -/
theorem c7_witness :
    processCompletionStream [mkTextEvent "Hello", mkTextEvent "world"] =
      .ok "Hello world" ∧
    processOpenaiStream
      [⟨[⟨⟨some "Hello"⟩, none⟩]⟩, ⟨[⟨⟨some "world"⟩, none⟩]⟩] = "Helloworld" := by
  constructor
  · exact c7_aggregation.1 _ ["Hello", "world"] (by rfl) (by simp)
  · exact c7_aggregation.2 _ (by simp) (by decide)

theorem truthyLastUser_of_no_user (messages : List ChatMsg)
    (h : ∀ m ∈ messages, m.role ≠ "user") :
    truthyLastUser messages = none := by
  have hf : messages.reverse.find? (fun m => m.role == "user") = none :=
    List.find?_eq_none.mpr (fun x hx => by simp [h x (List.mem_reverse.mp hx)])
  simp [truthyLastUser, lastUserContent, hf]

/-- Claim C8: a request whose message list has no user-role entry is rejected
with the 400 body before the backend is invoked (the invocation flag stays
false and the outcome does not depend on either backend call outcome). -/
theorem c8_validation (data : ReqData) (inv1 inv2 : Except PyExc (List PyVal))
    (freshId : String) (now : Int)
    (h : ∀ m ∈ data.messages, m.role ≠ "user") :
    chat_completions data inv1 inv2 freshId now =
      (.badRequest "No user message found", false) := by
  simp [chat_completions, truthyLastUser_of_no_user data.messages h]

/-- Claim C8 witness: a concrete request with only a system message. -/
theorem c8_witness :
    chat_completions ⟨[⟨"system", "be nice"⟩], false, none⟩ (.ok []) (.ok [])
      "u" 0 = (.badRequest "No user message found", false) :=
  c8_validation ⟨[⟨"system", "be nice"⟩], false, none⟩ (.ok []) (.ok []) "u" 0
    (by decide)

/-- Claim C9 counterexample: the empty string is an explicitly supplied
provider name outside the known set, yet resolution does not fail with the
unknown-provider error: it falls through to the probe loop (here, with no
provider available, to the no-provider error). -/
theorem c9_counterexample :
    get_provider ⟨none, none, none, none, none⟩ (some "") =
      .error .noProviderAvail ∧
    (∀ (name : String),
      (Except.error (ProviderError.unknownProvider name) :
        Except ProviderError String) ≠ .error .noProviderAvail) :=
  ⟨rfl, fun name => by simp⟩

/-- Claim C9 (amended): a NON-EMPTY explicit name whose lowercase form is
outside the known set fails with the unknown-provider error before any
availability is consulted; an empty-string name behaves like an absent one;
with no name, providers are probed in declared order, bedrock then openai,
returning the first available and failing with the no-provider error when
none qualifies. -/
theorem c9_amended :
    (∀ (env : ProviderEnv) (s : String), s ≠ "" →
      pyLower s ≠ "bedrock" → pyLower s ≠ "openai" →
      get_provider env (some s) = .error (.unknownProvider (pyLower s))) ∧
    (∀ (env : ProviderEnv),
      get_provider env none =
        (if bedrockAvailable env then .ok "bedrock"
         else if openaiAvailable env then .ok "openai"
         else .error .noProviderAvail)) ∧
    (∀ (env : ProviderEnv), get_provider env (some "") = get_provider env none) := by
  refine ⟨?_, fun env => rfl, fun env => rfl⟩
  intro env s h1 h2 h3
  simp [get_provider, h1, h2, h3]

/-- Claim C9 witness: the amended statement at the concrete unknown name and
at a bedrock-only environment probe. -/
theorem c9_witness :
    get_provider ⟨some "a", some "b", some "c", some "d", none⟩
      (some "unknownx") = .error (.unknownProvider "unknownx") ∧
    get_provider ⟨some "a", some "b", some "c", some "d", none⟩ none =
      .ok "bedrock" := by
  constructor
  · exact c9_amended.1 ⟨some "a", some "b", some "c", some "d", none⟩
      "unknownx" (by decide) (by decide) (by decide)
  · exact (c9_amended.2.1 ⟨some "a", some "b", some "c", some "d", none⟩).trans
      (by rfl)

/-- Claim C10: every non-streaming JSON completion body carries the sentinel
usage values minus one for prompt, completion and total tokens, whatever the
request and whatever the backend produced. -/
theorem c10_usage (data : ReqData) (inv1 inv2 : Except PyExc (List PyVal))
    (freshId : String) (now : Int) (resp : CompletionResponse) (called : Bool)
    (h : chat_completions data inv1 inv2 freshId now = (.okJson resp, called)) :
    resp.usage = ⟨-1, -1, -1⟩ := by
  unfold chat_completions at h
  split at h
  · simp at h
  · split at h
    · simp at h
    · split at h
      · simp at h
      · split at h
        · simp at h
        · simp only [Prod.mk.injEq, HttpOutcome.okJson.injEq] at h
          rw [← h.1]
          rfl

/-- Claim C10 witness: a concrete non-streaming request evaluated end to
end. -/
theorem c10_witness :
    (chat_completions ⟨[⟨"user", "hi"⟩], false, none⟩ (.ok []) (.ok []) "u" 7).1 =
      .okJson (create_chat_completion_response "u" 7 agentNoResponseText
        "bedrock-agent") ∧
    (create_chat_completion_response "u" 7 agentNoResponseText
      "bedrock-agent").usage = ⟨-1, -1, -1⟩ := by
  constructor
  · rfl
  · exact c10_usage ⟨[⟨"user", "hi"⟩], false, none⟩ (.ok []) (.ok []) "u" 7 _
      true (by rfl)

theorem chunkJsonStepStream_some_ne (cc c : String)
    (h : chunkJsonStepStream cc = .ok (some c)) : c ≠ "" := by
  unfold chunkJsonStepStream at h
  repeat' split at h
  all_goals simp_all

theorem bedrockChunkExtract_some_ne (ev : PyVal) (c : String)
    (h : bedrockChunkExtract ev = .ok (some c)) : c ≠ "" := by
  unfold bedrockChunkExtract at h
  repeat' split at h
  all_goals first
    | exact chunkJsonStepStream_some_ne _ c h
    | simp_all

theorem bedrockChunkYield_some_ne (ev : PyVal) (c : String)
    (h : bedrockChunkYield ev = .ok (some c)) : c ≠ "" := by
  unfold bedrockChunkYield at h
  split at h
  · simp at h
  · simp at h
  · split at h
    · simp at h
    · rename_i o heq
      simp only [Except.ok.injEq] at h
      rw [h] at heq
      exact bedrockChunkExtract_some_ne ev c heq

theorem bedrockLoop_cons (cid : String) (created : Int) (model : String)
    (ev : PyVal) (rest : List PyVal) :
    bedrockLoop cid created model (ev :: rest) =
      match bedrockChunkYield ev with
      | .error e => ⟨[], false, some e⟩
      | .ok none => bedrockLoop cid created model rest
      | .ok (some c) =>
        ⟨.chunk (contentChunk cid created model c) ::
          (bedrockLoop cid created model rest).frames, true,
          (bedrockLoop cid created model rest).exc⟩ := rfl

theorem isNonempty_contentChunk (cid : String) (created : Int) (model : String)
    (s : String) (h : s ≠ "") :
    isNonemptyContentFrame (.chunk (contentChunk cid created model s)) = true := by
  simp [isNonemptyContentFrame, contentChunk, deltaHasContent, h]

theorem bedrockLoop_sent_any (cid : String) (created : Int) (model : String)
    (events : List PyVal)
    (h : (bedrockLoop cid created model events).sent = true) :
    (bedrockLoop cid created model events).frames.any isNonemptyContentFrame = true := by
  induction events with
  | nil => simp [bedrockLoop] at h
  | cons ev rest ih =>
    rw [bedrockLoop_cons] at h ⊢
    cases hy : bedrockChunkYield ev with
    | error e =>
      rw [hy] at h
      simp at h
    | ok o =>
      cases o with
      | none =>
        rw [hy] at h
        exact ih h
      | some c =>
        have hc := bedrockChunkYield_some_ne ev c hy
        show (StreamFrame.chunk (contentChunk cid created model c) ::
          (bedrockLoop cid created model rest).frames).any
            isNonemptyContentFrame = true
        simp [isNonempty_contentChunk cid created model c hc]

theorem finishThenDone_append (l : List StreamFrame) (f : StreamFrame)
    (h : isFinishFrame f = true) :
    finishThenDone (l ++ [f, .done]) = true := by
  unfold finishThenDone
  rw [List.reverse_append]
  simp [h]

theorem sseContract_parts (mid : List StreamFrame) (cid : String)
    (created : Int) (model : String) (r : String)
    (hc : mid.any isNonemptyContentFrame = true) :
    sseContract ((.chunk (roleChunk cid created model) :: mid) ++
      [.chunk (finishChunk cid created model r), .done]) = true := by
  unfold sseContract
  rw [Bool.and_eq_true, Bool.and_eq_true]
  refine ⟨⟨?_, ?_⟩, ?_⟩
  · simp [startsWithRole, isRoleFrame, roleChunk]
  · exact finishThenDone_append _ _ (by simp [isFinishFrame, finishChunk])
  · simp [List.any_append, List.any_cons, hc]

theorem openaiLoop_cons (cid : String) (created : Int) (model : String)
    (ch : OChunk) (rest : List OChunk) :
    openaiLoop cid created model (ch :: rest) =
      match ch.choices with
      | [] => openaiLoop cid created model rest
      | c :: _ =>
        ((openaiContentPart cid created model c).1 ++
          openaiFinishPart cid created model c ++
          (openaiLoop cid created model rest).1,
         (openaiContentPart cid created model c).2 ||
          (openaiLoop cid created model rest).2) := rfl

theorem openaiContentPart_spec (cid : String) (created : Int) (model : String)
    (c : OChoice) :
    ((openaiContentPart cid created model c).2 = false ∧
      (openaiContentPart cid created model c).1 = []) ∨
    (∃ s, s ≠ "" ∧ openaiContentPart cid created model c =
      ([.chunk (contentChunk cid created model s)], true)) := by
  unfold openaiContentPart
  cases c.delta.content with
  | none => exact Or.inl ⟨rfl, rfl⟩
  | some s =>
    by_cases hs : s == ""
    · exact Or.inl (by simp [hs])
    · exact Or.inr ⟨s, by simpa using hs, by simp [hs]⟩

theorem openaiLoop_sent_any (cid : String) (created : Int) (model : String)
    (stream : List OChunk)
    (h : (openaiLoop cid created model stream).2 = true) :
    (openaiLoop cid created model stream).1.any isNonemptyContentFrame = true := by
  induction stream with
  | nil => simp [openaiLoop] at h
  | cons ch rest ih =>
    rw [openaiLoop_cons] at h ⊢
    cases hch : ch.choices with
    | nil =>
      rw [hch] at h
      exact ih h
    | cons c cs =>
      rw [hch] at h
      have h2 : ((openaiContentPart cid created model c).2 ||
          (openaiLoop cid created model rest).2) = true := h
      show ((openaiContentPart cid created model c).1 ++
        openaiFinishPart cid created model c ++
        (openaiLoop cid created model rest).1).any isNonemptyContentFrame = true
      rcases openaiContentPart_spec cid created model c with ⟨hb, hl⟩ | ⟨s, hs, hcp⟩
      · rw [hb] at h2
        simp only [Bool.false_or] at h2
        rw [hl]
        have h3 := ih h2
        simp [List.any_append, h3]
      · rw [hcp]
        simp [List.any_append, isNonempty_contentChunk cid created model s hs]

theorem bedrockLoop_chunkless (cid : String) (created : Int) (model : String)
    (events : List PyVal) (h : ∀ ev ∈ events, isChunklessDictEvent ev = true) :
    bedrockLoop cid created model events = ⟨[], false, none⟩ := by
  induction events with
  | nil => rfl
  | cons ev rest ih =>
    have hev := h ev (by simp)
    have hyield : bedrockChunkYield ev = .ok none := by
      cases ev <;> simp [isChunklessDictEvent] at hev
      simp [bedrockChunkYield, pyContains, hev]
    rw [bedrockLoop_cons, hyield]
    exact ih (fun e he => h e (by simp [he]))

/-- Claim C5: in the agent-style streaming path only byte-chunk events ever
produce a content delta: a stream of events without the chunk key emits
exactly the role chunk, the placeholder content chunk, the stop chunk and
the DONE sentinel; yet the synchronous decoder extracts fragments from all
four event shapes (trace, chunk, direct text and direct content). -/
theorem c5_streaming_vs_sync :
    (∀ (messages : List ChatMsg) (cid : String) (created : Int) (model : String)
       (events : List PyVal) (m : String),
       truthyLastUser messages = some m →
       (∀ ev ∈ events, isChunklessDictEvent ev = true) →
       bedrockStreamingFrames messages cid created model (.ok events) =
         [.chunk (roleChunk cid created model),
          .chunk (contentChunk cid created model agentNoResponseText),
          .chunk (finishChunk cid created model "stop"), .done]) ∧
    processCompletionStream [mkTraceEvent "A", mkChunkEvent contentBJsonBytes,
      mkTextEvent "C", mkContentEvent "D"] = .ok "A B C D" := by
  constructor
  · intro messages cid created model events m hm hall
    simp only [bedrockStreamingFrames, hm]
    rw [bedrockLoop_chunkless cid created model events hall]
    rfl
  · rfl

/-- Claim C5 witness: the streaming conjunct at a concrete stream of a text
event and a content event, both of which the synchronous decoder would have
turned into fragments. -/
theorem c5_witness :
    bedrockStreamingFrames [⟨"user", "hi"⟩] "cid" 0 "m"
      (.ok [mkTextEvent "x", mkContentEvent "y"]) =
      [.chunk (roleChunk "cid" 0 "m"),
       .chunk (contentChunk "cid" 0 "m" agentNoResponseText),
       .chunk (finishChunk "cid" 0 "m" "stop"), .done] :=
  c5_streaming_vs_sync.1 [⟨"user", "hi"⟩] "cid" 0 "m"
    [mkTextEvent "x", mkContentEvent "y"] "hi" (by rfl) (by decide)

/-- Claim C4 counterexample: the model-style streaming path, fed one content
delta and no finish-reason event (an exception-free run), emits role chunk,
content chunk, DONE, with no finish-reason chunk before the sentinel, so the
claimed frame-sequence contract is violated. -/
theorem c4_counterexample :
    openaiStreamingFrames "cid" 0 "m" [⟨[⟨⟨some "Hi"⟩, none⟩]⟩] =
      [.chunk (roleChunk "cid" 0 "m"), .chunk (contentChunk "cid" 0 "m" "Hi"),
       .done] ∧
    sseContract [.chunk (roleChunk "cid" 0 "m"),
      .chunk (contentChunk "cid" 0 "m" "Hi"), .done] = false := ⟨rfl, rfl⟩

/-- Claim C4 (amended): the frame contract (role-delta chunk first, a
finish-reason chunk immediately followed by DONE at the end, at least one
non-empty content chunk) holds unconditionally for the agent-style adapter
whenever no exception escapes (user message present, backend call ok, loop
exception-free); for the model-style adapter it additionally requires that
the backend stream either yielded no content at all or ended its emissions
with a finish-reason chunk. -/
theorem c4_amended :
    (∀ (messages : List ChatMsg) (cid : String) (created : Int) (model : String)
       (events : List PyVal) (m : String),
       truthyLastUser messages = some m →
       (bedrockLoop cid created model events).exc = none →
       sseContract (bedrockStreamingFrames messages cid created model
         (.ok events)) = true) ∧
    (∀ (cid : String) (created : Int) (model : String) (stream : List OChunk),
       ((openaiLoop cid created model stream).2 = false ∨
        lastIsFinish (openaiLoop cid created model stream).1 = true) →
       sseContract (openaiStreamingFrames cid created model stream) = true) := by
  constructor
  · intro messages cid created model events m hm hexc
    simp only [bedrockStreamingFrames, hm]
    rw [hexc]
    cases hsent : (bedrockLoop cid created model events).sent with
    | true =>
      exact sseContract_parts (bedrockLoop cid created model events).frames
        cid created model "stop" (bedrockLoop_sent_any cid created model events hsent)
    | false =>
      have hph : agentNoResponseText ≠ "" := by decide
      have hc : ((bedrockLoop cid created model events).frames ++
          [StreamFrame.chunk (contentChunk cid created model agentNoResponseText)]).any
            isNonemptyContentFrame = true := by
        simp [List.any_append, isNonempty_contentChunk cid created model _ hph]
      have hmain := sseContract_parts
        ((bedrockLoop cid created model events).frames ++
          [StreamFrame.chunk (contentChunk cid created model agentNoResponseText)])
        cid created model "stop" hc
      simpa [List.append_assoc] using hmain
  · intro cid created model stream hyp
    simp only [openaiStreamingFrames]
    cases hsent : (openaiLoop cid created model stream).2 with
    | false =>
      have hph : openaiNoResponseText ≠ "" := by decide
      have hc : ((openaiLoop cid created model stream).1 ++
          [StreamFrame.chunk (contentChunk cid created model openaiNoResponseText)]).any
            isNonemptyContentFrame = true := by
        simp [List.any_append, isNonempty_contentChunk cid created model _ hph]
      have hmain := sseContract_parts
        ((openaiLoop cid created model stream).1 ++
          [StreamFrame.chunk (contentChunk cid created model openaiNoResponseText)])
        cid created model "stop" hc
      simpa [List.append_assoc] using hmain
    | true =>
      rcases hyp with hfalse | hlast
      · rw [hsent] at hfalse
        simp at hfalse
      · unfold lastIsFinish at hlast
        unfold sseContract
        rw [Bool.and_eq_true, Bool.and_eq_true]
        refine ⟨⟨rfl, ?_⟩, ?_⟩
        · show finishThenDone (StreamFrame.chunk (roleChunk cid created model) ::
            ((openaiLoop cid created model stream).1 ++ [StreamFrame.done])) = true
          unfold finishThenDone
          cases hrev : (openaiLoop cid created model stream).1.reverse with
          | nil =>
            rw [hrev] at hlast
            simp at hlast
          | cons f t =>
            rw [hrev] at hlast
            rw [show (StreamFrame.chunk (roleChunk cid created model) ::
              ((openaiLoop cid created model stream).1 ++ [StreamFrame.done])).reverse =
              StreamFrame.done :: f ::
                (t ++ [StreamFrame.chunk (roleChunk cid created model)]) from by
              simp [hrev]]
            exact hlast
        · have hany := openaiLoop_sent_any cid created model stream hsent
          show (StreamFrame.chunk (roleChunk cid created model) ::
            ((openaiLoop cid created model stream).1 ++ [StreamFrame.done])).any
              isNonemptyContentFrame = true
          simp [List.any_append, List.any_cons, hany]

/-- Claim C4 witness: the amended statement at concrete exception-free
streams for both adapters. -/
theorem c4_witness :
    sseContract (bedrockStreamingFrames [⟨"user", "hi"⟩] "cid" 0 "m" (.ok [])) =
      true ∧
    sseContract (openaiStreamingFrames "cid" 0 "m" []) = true :=
  ⟨c4_amended.1 [⟨"user", "hi"⟩] "cid" 0 "m" [] "hi" (by rfl) (by rfl),
   c4_amended.2 "cid" 0 "m" [] (Or.inl (by rfl))⟩
